import Mathlib

/-!
Verification of the indexer agent core against its natural-language
specification.

The configuration layer is embedded from
`packages/indexer-agent/src/commands/start.ts`.  The transaction executor,
receipt collector and rebate claim scheduler are not part of the studied
excerpt; where a claim depends on them they are modelled from the spec and
each such definition says so in its doc comment.
-/

set_option autoImplicit false

namespace IndexerAgent

/-! ## JavaScript truthiness helpers

yargs hands the check callback raw JavaScript values; the checks in
`start.ts` rely on JS truthiness (`if (argv[...])`, `!x`, `||`, `&&`).
We model an absent (`undefined`) value as `none`; for numbers, `0` (and
`NaN`, which we fold into the absent case) is falsy; for strings, the
empty string is falsy. -/

def jsTruthyNum (q : ℚ) : Bool := q != 0

def jsTruthyOptNum : Option ℚ → Bool
  | none => false
  | some q => q != 0

def jsTruthyStr : Option String → Bool
  | none => false
  | some s => s != ""

/-- JS `a || b` for a possibly-undefined number `a`: keeps `a` when it is
truthy, otherwise evaluates to `b`. -/
def jsOrNum (a : Option ℚ) (b : ℚ) : ℚ :=
  match a with
  | some q => if q = 0 then b else q
  | none => b

/-! ## The argv record produced by the yargs builder

Only the fields the studied checks and the fee-cap selection read.  Values
are post-coercion: `gas-increase-timeout` is coerced from seconds with
`arg => arg * 1000`; `gas-price-max` and `base-fee-per-gas-max` are coerced
from gwei with `arg => arg * 10 ** 9`.  `gas-price-max` has default 100
(gwei); `base-fee-per-gas-max` has no default, so it is absent unless
configured.  `indexer-geo-coordinates` is a list of coordinates; we model
each coordinate by its numeric value under JS `+` conversion (`none` for a
missing entry; an unparseable entry converts to `NaN`, which behaves like
the falsy/missing case the check tests for). -/

structure Argv where
  networkSubgraphEndpoint : Option String
  networkSubgraphDeployment : Option String
  indexerGeoCoordinates : List ℚ
  gasIncreaseTimeout : ℚ
  gasIncreaseFactor : ℚ
  gasPriceMax : ℚ
  baseFeePerGasMax : Option ℚ
deriving DecidableEq

/-- Coercion of the `gas-increase-timeout` option: `arg => arg * 1000`
(seconds to milliseconds). -/
def coerceGasIncreaseTimeout (seconds : ℚ) : ℚ := seconds * 1000

/-- Coercion of the `gas-price-max` and `base-fee-per-gas-max` options:
`arg => arg * 10 ** 9` (gwei to wei). -/
def coerceGweiToWei (gwei : ℚ) : ℚ := gwei * 1000000000

/-! ## The `.check(argv => ...)` callback (start.ts lines 311-333)

The callback returns an error string or `true`; we model the result as
`Option String` (`some msg` = rejected with `msg`, `none` = accepted).
Each early `return` of the source becomes a fall-through to the next
guard. -/

def subgraphErr : String :=
  "At least one of --network-subgraph-endpoint and --network-subgraph-deployment must be provided"

def geoErr : String :=
  "Invalid --indexer-geo-coordinates provided. Must be of format e.g.: 31.780715 -41.179504"

def timeoutErr : String :=
  "Invalid --gas-increase-timeout provided. Must be at least 30 seconds"

def factorErr : String :=
  "Invalid --gas-increase-factor provided. Must be > 1.0"

/-- Source: `if (argv['gas-increase-factor'] <= 1.0) return 'Invalid ...'` -/
def checkGasFactor (argv : Argv) : Option String :=
  if argv.gasIncreaseFactor ≤ 1 then some factorErr else none

/-- Source: `if (argv['gas-increase-timeout']) ... return 'Invalid ...'`
— note the outer guard tests the coerced millisecond value for truthiness
before the inner minimum-value comparison runs. -/
def checkGasTimeout (argv : Argv) : Option String :=
  if jsTruthyNum argv.gasIncreaseTimeout then
    if argv.gasIncreaseTimeout < 30000 then some timeoutErr
    else checkGasFactor argv
  else checkGasFactor argv

/-- Source: the indexer-geo-coordinates guard
— the option has a default and yargs always supplies an array, and a JS
array is truthy, so the outer guard always passes and only the inner
test on the first two coordinates remains. -/
def checkGeo (argv : Argv) : Option String :=
  if !jsTruthyOptNum (argv.indexerGeoCoordinates.get? 0)
      || !jsTruthyOptNum (argv.indexerGeoCoordinates.get? 1) then some geoErr
  else checkGasTimeout argv

/-- The whole check callback: network-subgraph guard, then geo guard, then
gas-increase-timeout guard, then gas-increase-factor guard, then `true`. -/
def checkArgv (argv : Argv) : Option String :=
  if !jsTruthyStr argv.networkSubgraphEndpoint
      && !jsTruthyStr argv.networkSubgraphDeployment then some subgraphErr
  else checkGeo argv

/-! ## Fee-cap selection (start.ts line 678)

`const maxGasFee = argv.baseFeeGasMax || argv.gasPriceMax`

The handler reads the property `baseFeeGasMax`.  No option defines that
key: the option is named `base-fee-per-gas-max`, which yargs exposes as
`baseFeePerGasMax`.  The access therefore always yields `undefined`. -/

/-- The value of `argv.baseFeeGasMax` in the handler: `undefined`, because
no yargs option populates a key of that name. -/
def Argv.baseFeeGasMax (_ : Argv) : Option ℚ := none

/-- Line 678: `const maxGasFee = argv.baseFeeGasMax || argv.gasPriceMax`,
the fee ceiling passed to `Network.create`. -/
def maxGasFee (argv : Argv) : ℚ := jsOrNum argv.baseFeeGasMax argv.gasPriceMax

/-- The fee ceiling as the spec describes it: the configured
base-fee-per-gas maximum when present, the legacy gas-price maximum
otherwise. -/
def maxGasFeeClaimed (argv : Argv) : ℚ :=
  argv.baseFeePerGasMax.getD argv.gasPriceMax

/-! ## Transaction executor: fee escalation

Modelled from the spec: the TransactionExecutor itself is not in the
studied excerpt (only its configuration options are). -/

/-- Modelled from the spec: the fee computed for a resubmitted attempt
after the previous attempt stayed unconfirmed for `feeConfirmationTimeout`
— "recompute fee as previousFee × feeEscalationFactor, capped at
`maxFeeCap` if set". -/
def nextFee (feeEscalationFactor : ℚ) (maxFeeCap : Option ℚ) (previousFee : ℚ) : ℚ :=
  match maxFeeCap with
  | some cap => min (previousFee * feeEscalationFactor) cap
  | none => previousFee * feeEscalationFactor

/-! ## Voucher lifecycle -/

/-- The voucher lifecycle states of the spec's data model. -/
inductive VState where
  | pending
  | collecting
  | collected
  | claiming
  | claimed
  | invalid
  | expired
deriving DecidableEq, Repr, Fintype

/-- Position of a state in the forward order pending, collecting,
collected, claiming, claimed; the terminal exits invalid and expired sit
past the end of the order. -/
def stateRank : VState → ℕ
  | .pending => 0
  | .collecting => 1
  | .collected => 2
  | .claiming => 3
  | .claimed => 4
  | .invalid => 5
  | .expired => 5

/-- Modelled from the spec: the voucher state transitions performed by the
ReceiptCollector (`collectBatch`, `expireVouchers`) and the
RebateClaimScheduler; the source of neither component is in the studied
excerpt. `voucherStep s t` holds when some operation moves a voucher from
state `s` to state `t`. -/
def voucherStep : VState → VState → Bool
  | .pending, .collecting => true -- collectBatch groups pending vouchers
  | .collecting, .collected => true -- collection endpoint accepted the voucher
  | .collecting, .pending => true -- endpoint rejected it or was unavailable: retry
  | .pending, .invalid => true -- poisoned voucher after N failed retries
  | .pending, .expired => true -- expiration sweep
  | .collecting, .expired => true -- expiration sweep
  | .collected, .expired => true -- expiration sweep
  | .collected, .claiming => true -- claim batch built by the scheduler
  | .claiming, .claimed => true -- claim transaction confirmed
  | .claiming, .collected => true -- claim transaction reverted or timed out
  | _, _ => false

/-- A persisted voucher: identifier, owning allocation, confirmed value,
lifecycle state and creation timestamp. -/
structure Voucher where
  id : ℕ
  allocation : ℕ
  value : ℤ
  state : VState
  createdAt : ℕ
deriving DecidableEq, Repr

/-! ## Receipt ingestion -/

/-- An incoming signed receipt.  Amounts are integers (the agent handles
them as fixed-point BigNumber wei values); `signatureValid` is the outcome
of verifying the receipt's signature against the issuing allocation's
payment channel (the cryptographic check is treated as an oracle). -/
structure Receipt where
  allocation : ℕ
  amount : ℤ
  signatureValid : Bool
  receivedAt : ℕ
deriving DecidableEq, Repr

/-- A receipt passes validation when its signature checks out and its
amount is positive. -/
def receiptValid (r : Receipt) : Bool :=
  r.signatureValid && decide (0 < r.amount)

def sigErr : String := "receipt signature does not match the allocation payment channel"

def amountErr : String := "receipt amount must be positive"

/-- Modelled from the spec: the validation step of `ingest(receipt)` —
signature against the issuing allocation's payment channel and a positive
amount. -/
def validateReceipt (r : Receipt) : Except String Unit :=
  if !r.signatureValid then Except.error sigErr
  else if !(decide (0 < r.amount)) then Except.error amountErr
  else Except.ok ()

/-- Modelled from the spec: `ingest(receipt)` of the ReceiptCollector,
whose source is not in the studied excerpt.  On validation success a new
voucher is persisted in `pending`; on failure the voucher is created
`invalid` and the validation error is reported through the returned report
channel instead of being raised — the result is `Except.ok` in every
case. -/
def ingest (r : Receipt) (store : List Voucher) :
    Except String (List Voucher × Option String) :=
  match validateReceipt r with
  | Except.ok _ =>
      Except.ok
        (store ++ [⟨store.length, r.allocation, r.amount, VState.pending, r.receivedAt⟩],
          none)
  | Except.error e =>
      Except.ok
        (store ++ [⟨store.length, r.allocation, r.amount, VState.invalid, r.receivedAt⟩],
          some e)

/-! ## Collector state machine and crash recovery

Modelled from the spec: the ReceiptCollector keeps a durable VoucherStore
and a volatile processing queue of vouchers awaiting collection.  A crash
loses the queue; `recover()` (realised in the excerpt only as the call
`receiptCollector.queuePendingReceiptsFromDatabase()`) reloads every
voucher left in `pending` or `collecting` state and re-enqueues it. -/

/-- A voucher still awaiting processing by the collection loop. -/
def isAwaiting (v : Voucher) : Bool :=
  v.state = VState.pending ∨ v.state = VState.collecting

/-- Identifiers of the vouchers awaiting processing, in store order. -/
def awaitingIds (store : List Voucher) : List ℕ :=
  (store.filter isAwaiting).map (fun v => v.id)

/-- Collector state: the durable voucher store and the volatile processing
queue. -/
structure CState where
  store : List Voucher
  queue : List ℕ
deriving DecidableEq, Repr

/-- External events driving the collector: an incoming receipt, the start
of a collection round, and the collection endpoint accepting or rejecting
a submitted voucher. -/
inductive CEvent where
  | receipt (r : Receipt)
  | beginCollect
  | endpointAccept (id : ℕ)
  | endpointReject (id : ℕ)
deriving DecidableEq, Repr

/-- Ingestion inside the pipeline: persist the new voucher (`pending` when
valid, `invalid` otherwise) and enqueue a valid one for collection.
Identifiers are assigned sequentially by the store. -/
def ingestS (r : Receipt) (s : CState) : CState :=
  let v : Voucher :=
    { id := s.store.length
      allocation := r.allocation
      value := r.amount
      state := if receiptValid r then VState.pending else VState.invalid
      createdAt := r.receivedAt }
  { store := s.store ++ [v]
    queue := if receiptValid r then s.queue ++ [v.id] else s.queue }

/-- Phase one of `collectBatch`: it marks the grouped `pending` vouchers `collecting` and
submits them to the collection endpoint. -/
def markCollecting (v : Voucher) : Voucher :=
  if v.state = VState.pending then { v with state := VState.collecting } else v

def beginCollectS (s : CState) : CState :=
  { s with store := s.store.map markCollecting }

/-- Overwrite the state of the voucher with identifier `id`. -/
def setState (id : ℕ) (st : VState) (v : Voucher) : Voucher :=
  if v.id = id then { v with state := st } else v

/-- The endpoint returned voucher `id` as claimable: it becomes
`collected` and leaves the processing queue. -/
def endpointAcceptS (id : ℕ) (s : CState) : CState :=
  match s.store.find? (fun v => v.id == id) with
  | some v =>
      if v.state = VState.collecting then
        { store := s.store.map (setState id VState.collected)
          queue := s.queue.filter (fun j => j != id) }
      else s
  | none => s

/-- The endpoint rejected voucher `id`: it reverts to `pending` for a
later retry and stays queued. -/
def endpointRejectS (id : ℕ) (s : CState) : CState :=
  match s.store.find? (fun v => v.id == id) with
  | some v =>
      if v.state = VState.collecting then
        { s with store := s.store.map (setState id VState.pending) }
      else s
  | none => s

def stepC (s : CState) (e : CEvent) : CState :=
  match e with
  | .receipt r => ingestS r s
  | .beginCollect => beginCollectS s
  | .endpointAccept id => endpointAcceptS id s
  | .endpointReject id => endpointRejectS id s

def runC (s : CState) (es : List CEvent) : CState := es.foldl stepC s

def initC : CState := { store := [], queue := [] }

/-- A crash loses the volatile queue; the durable store survives. -/
def crashC (s : CState) : CState := { store := s.store, queue := [] }

/-- Recovery entry point `recover()`: reload every voucher left in `pending` or `collecting`
state from the store and re-enqueue it for processing. -/
def recoverS (s : CState) : CState :=
  { store := s.store, queue := awaitingIds s.store }

/-! ## Expiration sweep -/

/-- States subject to the expiration sweep: `pending`, `collecting` and
`collected`. -/
def expirableState : VState → Bool
  | .pending => true
  | .collecting => true
  | .collected => true
  | _ => false

/-- Modelled from the spec: `expireVouchers()` marks every
pending/collecting/collected voucher older than the configured expiration
window as `expired`. -/
def expireVoucher (window now : ℕ) (v : Voucher) : Voucher :=
  if expirableState v.state = true ∧ v.createdAt + window < now then
    { v with state := VState.expired }
  else v

def expireVouchers (window now : ℕ) (store : List Voucher) : List Voucher :=
  store.map (expireVoucher window now)

/-! ## Rebate claim scheduler

Modelled from the spec: the RebateClaimScheduler's `evaluate()` is not in
the studied excerpt; only its thresholds (`rebate-claim-threshold`,
`rebate-claim-batch-threshold`, handed to `AllocationReceiptCollector` as
`allocationClaimThreshold`) are. -/

structure SchedulerConfig where
  allocationClaimThreshold : ℤ
  batchClaimThreshold : ℤ
deriving DecidableEq, Repr

/-- An allocation as the scheduler sees it: its identifier and whether it
is transitioning to `closing`. -/
structure AllocationInfo where
  id : ℕ
  closing : Bool
deriving DecidableEq, Repr

def isCollected (v : Voucher) : Bool := v.state = VState.collected

/-- Running sum of `collected` voucher values for one allocation. -/
def collectedSum (vs : List Voucher) (a : ℕ) : ℤ :=
  ((vs.filter (fun v => v.allocation == a && isCollected v)).map (fun v => v.value)).sum

/-- Whether an allocation has at least one `collected` voucher. -/
def hasCollected (vs : List Voucher) (a : ℕ) : Bool :=
  vs.any (fun v => v.allocation == a && isCollected v)

/-- Sum of `collected` voucher values across all allocations with at least
one collected voucher. -/
def globalCollectedSum (vs : List Voucher) : ℤ :=
  ((vs.filter isCollected).map (fun v => v.value)).sum

/-- The spec's claim trigger for one allocation: per-allocation sum at or
above `allocationClaimThreshold`, or the cross-allocation sum at or above
`batchClaimThreshold` (for the allocations contributing to it), or the
allocation transitioning to `closing`. -/
def qualifies (cfg : SchedulerConfig) (vs : List Voucher) (a : AllocationInfo) : Bool :=
  decide (cfg.allocationClaimThreshold ≤ collectedSum vs a.id)
    || (decide (cfg.batchClaimThreshold ≤ globalCollectedSum vs) && hasCollected vs a.id)
    || a.closing

/-- The claim batch: the grouped vouchers and their computed total
value. -/
structure ClaimBatch where
  vouchers : List Voucher
  total : ℤ
deriving DecidableEq, Repr

/-- All `collected` vouchers of every qualifying allocation. -/
def buildBatch (cfg : SchedulerConfig) (allocs : List AllocationInfo)
    (vs : List Voucher) : List Voucher :=
  vs.filter (fun v =>
    isCollected v && allocs.any (fun a => qualifies cfg vs a && a.id == v.allocation))

/-- Modelled from the spec: `evaluate()` — when some allocation meets a
trigger condition, build the batch of all collected vouchers of every
qualifying allocation, with the exact sum of their values as total, and
submit it as a single claim transaction (`some batch`); otherwise do
nothing (`none`). -/
def evaluate (cfg : SchedulerConfig) (allocs : List AllocationInfo)
    (vs : List Voucher) : Option ClaimBatch :=
  if allocs.any (qualifies cfg vs) then
    let b := buildBatch cfg allocs vs
    some { vouchers := b, total := (b.map (fun v => v.value)).sum }
  else none

/-! ## Claim transaction outcome handling -/

/-- Outcome of a transaction attempt. -/
inductive TxOutcome where
  | pending
  | confirmed
  | reverted
  | timedOut
deriving DecidableEq, Repr, Fintype

/-- Modelled from the spec: how the scheduler settles a voucher of a
submitted claim batch once the claim transaction reaches an outcome — on
`confirmed` mark it `claimed`; on `reverted` or `timedOut` mark it back to
`collected`; while still `pending` leave it untouched. -/
def settleVoucherState (o : TxOutcome) (s : VState) : VState :=
  match o with
  | .confirmed => VState.claimed
  | .reverted => VState.collected
  | .timedOut => VState.collected
  | .pending => s

def settleBatch (o : TxOutcome) (batch : List Voucher) : List Voucher :=
  batch.map (fun v => { v with state := settleVoucherState o v.state })

/-! ## Concrete configurations used as inputs -/

/-- A baseline configuration that passes every check: endpoint set, valid
geo coordinates, the default 240 s gas-increase timeout, the default 1.2
factor, the default 100 gwei legacy gas-price cap, no base-fee cap. -/
def argvBase : Argv :=
  { networkSubgraphEndpoint := some "https://gateway.example/network"
    networkSubgraphDeployment := none
    indexerGeoCoordinates := [317807/10000, -411795/10000]
    gasIncreaseTimeout := coerceGasIncreaseTimeout 240
    gasIncreaseFactor := 6/5
    gasPriceMax := coerceGweiToWei 100
    baseFeePerGasMax := none }

/-- The baseline with `--base-fee-per-gas-max 30` configured. -/
def argvWithBaseFee : Argv := { argvBase with baseFeePerGasMax := some (coerceGweiToWei 30) }

/-- The baseline with `--gas-increase-factor 1`. -/
def argvLowFactor : Argv := { argvBase with gasIncreaseFactor := 1 }

/-- The baseline with `--gas-increase-timeout 0` (coerced to 0 ms). -/
def argvZeroTimeout : Argv := { argvBase with gasIncreaseTimeout := coerceGasIncreaseTimeout 0 }

/-- The baseline with `--gas-increase-timeout 10` (coerced to 10000 ms). -/
def argvShortTimeout : Argv := { argvBase with gasIncreaseTimeout := coerceGasIncreaseTimeout 10 }

/-- A voucher inside a submitted claim batch. -/
def vClaiming : Voucher :=
  { id := 0, allocation := 1, value := 5, state := VState.claiming, createdAt := 0 }

/-- The voucher `vClaiming` after the batch settles on a timed-out
claim. -/
def vSettled : Voucher :=
  { id := 0, allocation := 1, value := 5, state := VState.collected, createdAt := 0 }

/-- A receipt carrying an invalid signature. -/
def rBadSig : Receipt := { allocation := 1, amount := 5, signatureValid := false, receivedAt := 3 }

/-- The scenario configuration: `allocationClaimThreshold = 200`, with the
default batch threshold. -/
def cfg200 : SchedulerConfig := { allocationClaimThreshold := 200, batchClaimThreshold := 2000 }

/-- The scenario's single open allocation. -/
def alloc1 : AllocationInfo := { id := 1, closing := false }

/-- The scenario's three collected vouchers of value 80, 90 and 100. -/
def scenarioVouchers : List Voucher :=
  [ { id := 0, allocation := 1, value := 80, state := VState.collected, createdAt := 0 },
    { id := 1, allocation := 1, value := 90, state := VState.collected, createdAt := 0 },
    { id := 2, allocation := 1, value := 100, state := VState.collected, createdAt := 0 } ]

/-- The store before the third voucher is collected. -/
def scenarioFirstTwo : List Voucher := scenarioVouchers.take 2

/-- The invariant connecting the collector's volatile queue to the
durable store: the queue holds exactly the identifiers of the vouchers
still in `pending` or `collecting` state, in store order, and the store
assigns identifiers sequentially. -/
def InvC (s : CState) : Prop :=
  s.queue = awaitingIds s.store ∧
    s.store.map (fun v => v.id) = List.range s.store.length

/-! ## C1 -/

/-- C1: the claim fails on the code.  With `--base-fee-per-gas-max 30`
configured (and the default 100 gwei `--gas-price-max`), the `maxGasFee`
handed to `Network.create` is the legacy gas-price cap, not the configured
base-fee-per-gas maximum: line 678 reads `argv.baseFeeGasMax`, a property
no option populates, so the configured value is never consulted.  The
option's own description says the value is to be used as the fee ceiling,
so this is a slip in the code rather than in the spec. -/
theorem c1_maxGasFee_ignores_base_fee_config :
    maxGasFee argvWithBaseFee = coerceGweiToWei 100 ∧
    maxGasFeeClaimed argvWithBaseFee = coerceGweiToWei 30 ∧
    maxGasFee argvWithBaseFee ≠ maxGasFeeClaimed argvWithBaseFee := by
  refine ⟨rfl, rfl, ?_⟩
  simp only [maxGasFee, maxGasFeeClaimed, argvWithBaseFee, argvBase, Argv.baseFeeGasMax,
    jsOrNum, Option.getD, coerceGweiToWei]
  norm_num

/-! ## C2 -/

/-- C2 counterexample: once an attempt's fee sits at the cap, the fee of
the resubmitted attempt equals it instead of strictly exceeding it — with
factor 1.2 and cap 15, a previous fee of 15 yields a next fee of 15. -/
theorem c2_fee_not_strict_at_cap :
    nextFee (6/5) (some 15) 15 = 15 ∧ ¬ (15 : ℚ) < nextFee (6/5) (some 15) 15 := by
  have h : nextFee (6/5) (some 15) 15 = 15 := by
    simp only [nextFee]
    rw [min_eq_right (by norm_num : (15 : ℚ) ≤ 15 * (6/5))]
  exact ⟨h, by rw [h]; exact lt_irrefl 15⟩

/-- C2 (amended): for a factor above 1 and a positive previous fee, the
resubmitted attempt's fee is the previous fee times the factor capped at
`maxFeeCap`, never exceeds the cap, and is strictly greater than the
previous fee whenever the previous fee is still below the cap (always,
when no cap is set). -/
theorem c2_fee_escalation (factor prev : ℚ) (cap : Option ℚ)
    (hf : 1 < factor) (hp : 0 < prev) (hcap : ∀ c, cap = some c → prev < c) :
    prev < nextFee factor cap prev ∧ ∀ c, cap = some c → nextFee factor cap prev ≤ c := by
  have hmul : prev < prev * factor := by nlinarith
  cases cap with
  | none =>
    refine ⟨hmul, ?_⟩
    intro c hc
    cases hc
  | some c0 =>
    refine ⟨lt_min hmul (hcap c0 rfl), ?_⟩
    intro c hc
    injection hc with h
    subst h
    exact min_le_right _ _

/-- C2 witness: the spec's scenario — fee 10, factor 1.2, cap 15 — gives a
second attempt at fee 12, strictly above 10 and within the cap. -/
theorem c2_fee_escalation_witness :
    (1 : ℚ) < 6/5 ∧ (0 : ℚ) < 10 ∧ (10 : ℚ) < nextFee (6/5) (some 15) 10 ∧
      nextFee (6/5) (some 15) 10 = 12 ∧ nextFee (6/5) (some 15) 10 ≤ 15 := by
  have h12 : nextFee (6/5) (some 15) 10 = 12 := by
    simp only [nextFee]
    rw [min_eq_left (by norm_num : (10 : ℚ) * (6/5) ≤ 15)]
    norm_num
  refine ⟨by norm_num, by norm_num, ?_, h12, ?_⟩
  · exact (c2_fee_escalation (6/5) 10 (some 15) (by norm_num) (by norm_num)
      (fun c hc => by injection hc with h; subst h; norm_num)).1
  · exact (c2_fee_escalation (6/5) 10 (some 15) (by norm_num) (by norm_num)
      (fun c hc => by injection hc with h; subst h; norm_num)).2 15 rfl

/-! ## C3 -/

/-- C3 counterexample: the scheduler's handling of reverted and timed-out
claim transactions moves a voucher from `claiming` back to `collected` —
a permitted backward transition different from `collecting` to
`pending`. -/
theorem c3_claiming_to_collected_is_backward :
    voucherStep VState.claiming VState.collected = true ∧
    stateRank VState.collected < stateRank VState.claiming ∧
    ¬ (VState.claiming = VState.collecting ∧ VState.collected = VState.pending) := by
  decide

/-- C3 (amended): every permitted voucher transition moves strictly
forward in the state order, except for the two backward transitions the
model allows — `collecting` to `pending` on retry and `claiming` back to
`collected` when a claim transaction reverts or times out — and no
transition ever leaves `claimed`. -/
theorem c3_voucher_monotonicity :
    (∀ s t : VState, voucherStep s t = true →
        stateRank s < stateRank t ∨ (s = VState.collecting ∧ t = VState.pending) ∨
          (s = VState.claiming ∧ t = VState.collected)) ∧
    (∀ t : VState, voucherStep VState.claimed t = false) := by
  decide

/-- C3 witness: the transition from `pending` to `collecting` satisfies
the amended monotonicity property. -/
theorem c3_voucher_monotonicity_witness :
    voucherStep VState.pending VState.collecting = true ∧
    (stateRank VState.pending < stateRank VState.collecting ∨
      (VState.pending = VState.collecting ∧ VState.collecting = VState.pending) ∨
      (VState.pending = VState.claiming ∧ VState.collecting = VState.collected)) :=
  ⟨by decide, c3_voucher_monotonicity.1 VState.pending VState.collecting (by decide)⟩

/-! ## C5 -/

/-- C5: a voucher of a claim batch is set to `claimed` exactly when the
claim transaction reached `confirmed`; on a timed-out or reverted outcome
every voucher of the batch returns to `collected` and none is marked
`claimed`. -/
theorem c5_claimed_only_on_confirmed :
    (∀ o : TxOutcome,
        settleVoucherState o VState.claiming = VState.claimed ↔ o = TxOutcome.confirmed) ∧
    (∀ (o : TxOutcome) (batch : List Voucher),
        o = TxOutcome.timedOut ∨ o = TxOutcome.reverted →
        ∀ v ∈ settleBatch o batch, v.state = VState.collected ∧ v.state ≠ VState.claimed) := by
  constructor
  · decide
  · rintro o batch (rfl | rfl) v hv <;>
    · simp only [settleBatch, List.mem_map] at hv
      obtain ⟨w, -, rfl⟩ := hv
      simp [settleVoucherState]

/-- C5 witness: settling a one-voucher batch on a timed-out claim leaves
its voucher `collected`, not `claimed`. -/
theorem c5_claimed_only_on_confirmed_witness :
    (TxOutcome.timedOut = TxOutcome.timedOut ∨ TxOutcome.timedOut = TxOutcome.reverted) ∧
    vSettled.state = VState.collected ∧ vSettled.state ≠ VState.claimed :=
  ⟨Or.inl rfl,
    c5_claimed_only_on_confirmed.2 TxOutcome.timedOut [vClaiming] (Or.inl rfl)
      vSettled (by decide)⟩

/-! ## C7 -/

lemma expireVoucher_idem (window now : ℕ) (v : Voucher) :
    expireVoucher window now (expireVoucher window now v) = expireVoucher window now v := by
  unfold expireVoucher
  by_cases h : expirableState v.state = true ∧ v.createdAt + window < now
  · rw [if_pos h, if_neg]
    intro hc
    simp [expirableState] at hc
  · rw [if_neg h, if_neg h]

/-- C7: the expiration sweep is idempotent — for every store, window and
clock reading, running `expireVouchers` twice in succession yields the
same end state (in particular the same set of expired vouchers) as
running it once. -/
theorem c7_expire_idempotent : ∀ (window now : ℕ) (store : List Voucher),
    expireVouchers window now (expireVouchers window now store) =
      expireVouchers window now store := by
  intro window now store
  induction store with
  | nil => rfl
  | cons v t ih =>
    simp only [expireVouchers, List.map_cons] at ih ⊢
    rw [expireVoucher_idem, ih]

/-! ## C8 -/

/-- C8: `ingest(receipt)` never raises to its caller — its result is
`Except.ok` for every receipt and store.  A receipt whose signature fails
validation or whose amount is not positive yields a newly persisted
voucher in `invalid` state together with a reported error; a valid receipt
yields a newly persisted voucher in `pending` state and no error. -/
theorem c8_ingest_never_raises : ∀ (r : Receipt) (store : List Voucher),
    (∀ e, ingest r store ≠ Except.error e) ∧
    (r.signatureValid = false ∨ r.amount ≤ 0 →
      ∃ (v : Voucher) (e : String),
        ingest r store = Except.ok (store ++ [v], some e) ∧ v.state = VState.invalid) ∧
    (r.signatureValid = true → 0 < r.amount →
      ∃ v : Voucher,
        ingest r store = Except.ok (store ++ [v], none) ∧ v.state = VState.pending) := by
  intro r store
  refine ⟨?_, ?_, ?_⟩
  · intro e h
    unfold ingest at h
    cases hval : validateReceipt r <;> rw [hval] at h <;> cases h
  · intro hbad
    have hval : ∃ e, validateReceipt r = Except.error e := by
      by_cases hs : r.signatureValid = true
      · rcases hbad with h | h
        · rw [h] at hs; cases hs
        · exact ⟨amountErr, by simp [validateReceipt, hs, not_lt.mpr h]⟩
      · have hs' : r.signatureValid = false := by
          cases hb : r.signatureValid
          · rfl
          · exact absurd hb hs
        exact ⟨sigErr, by simp [validateReceipt, hs']⟩
    obtain ⟨e, hval⟩ := hval
    refine ⟨⟨store.length, r.allocation, r.amount, VState.invalid, r.receivedAt⟩, e, ?_, rfl⟩
    unfold ingest
    rw [hval]
  · intro hs ha
    have hval : validateReceipt r = Except.ok () := by
      simp [validateReceipt, hs, ha]
    refine ⟨⟨store.length, r.allocation, r.amount, VState.pending, r.receivedAt⟩, ?_, rfl⟩
    unfold ingest
    rw [hval]

/-- C8 witness: ingesting a receipt with a bad signature into an empty
store returns normally, persisting an `invalid` voucher and reporting the
error. -/
theorem c8_ingest_never_raises_witness :
    (rBadSig.signatureValid = false ∨ rBadSig.amount ≤ 0) ∧
    (∃ (v : Voucher) (e : String),
      ingest rBadSig [] = Except.ok ([] ++ [v], some e) ∧ v.state = VState.invalid) :=
  ⟨Or.inl rfl, (c8_ingest_never_raises rBadSig []).2.1 (Or.inl rfl)⟩

/-! ## C9 -/

/-- C9: the startup check requires a gas-increase factor strictly above
1.0 — every configuration with factor at most 1.0 is rejected with an
error, and the factor guard never fires for a factor above 1.0. -/
theorem c9_gas_increase_factor_check : ∀ argv : Argv,
    (argv.gasIncreaseFactor ≤ 1 → checkArgv argv ≠ none) ∧
    (1 < argv.gasIncreaseFactor → checkArgv argv ≠ some factorErr) := by
  intro argv
  constructor
  · intro hf h
    simp only [checkArgv, checkGeo, checkGasTimeout, checkGasFactor] at h
    split_ifs at h with h1 h2 h3 h4
  · intro hf h
    have hne : ¬ argv.gasIncreaseFactor ≤ 1 := not_le.mpr hf
    simp only [checkArgv, checkGeo, checkGasTimeout, checkGasFactor] at h
    split_ifs at h with h1 h2 h3 h4
    all_goals simp_all [subgraphErr, geoErr, timeoutErr, factorErr]

/-- C9 witness: a factor of exactly 1.0 is rejected; the baseline's 1.2
never triggers the factor error. -/
theorem c9_gas_increase_factor_check_witness :
    (argvLowFactor.gasIncreaseFactor ≤ 1 ∧ checkArgv argvLowFactor ≠ none) ∧
    (1 < argvBase.gasIncreaseFactor ∧ checkArgv argvBase ≠ some factorErr) :=
  ⟨⟨le_refl 1, (c9_gas_increase_factor_check argvLowFactor).1 (le_refl 1)⟩,
    ⟨by norm_num [argvBase],
      (c9_gas_increase_factor_check argvBase).2 (by norm_num [argvBase])⟩⟩

/-! ## C10 -/

/-- C10: the minimum-value check on the gas-increase timeout runs only
when the coerced millisecond value is truthy — a nonzero value below
30000 ms is rejected, while a configured value of 0 (coerced to 0 ms)
skips the check entirely and, when the other guards pass and the factor
is above 1.0, the configuration is accepted. -/
theorem c10_gas_increase_timeout_truthiness : ∀ argv : Argv,
    (argv.gasIncreaseTimeout = coerceGasIncreaseTimeout 0 →
      checkGasTimeout argv = checkGasFactor argv) ∧
    (argv.gasIncreaseTimeout ≠ 0 → argv.gasIncreaseTimeout < 30000 →
      checkGasTimeout argv = some timeoutErr) ∧
    (argv.gasIncreaseTimeout = 0 →
      jsTruthyStr argv.networkSubgraphEndpoint = true →
      jsTruthyOptNum (argv.indexerGeoCoordinates.get? 0) = true →
      jsTruthyOptNum (argv.indexerGeoCoordinates.get? 1) = true →
      1 < argv.gasIncreaseFactor →
      checkArgv argv = none) := by
  intro argv
  refine ⟨?_, ?_, ?_⟩
  · intro h0
    have hz : argv.gasIncreaseTimeout = 0 := by
      rw [h0]; simp [coerceGasIncreaseTimeout]
    simp [checkGasTimeout, jsTruthyNum, hz]
  · intro hne hlt
    have ht : jsTruthyNum argv.gasIncreaseTimeout = true := by
      simp [jsTruthyNum, hne]
    simp [checkGasTimeout, ht, hlt]
  · intro h0 hep hg0 hg1 hf
    rw [List.get?_eq_getElem?] at hg0 hg1
    simp [checkArgv, checkGeo, checkGasTimeout, checkGasFactor, hep, hg0, hg1,
      jsTruthyNum, h0, not_le.mpr hf]

/-- C10 witness: with the baseline otherwise, `--gas-increase-timeout 0`
skips the minimum check and the check callback accepts, while
`--gas-increase-timeout 10` (10000 ms) is rejected as below 30 seconds. -/
theorem c10_gas_increase_timeout_truthiness_witness :
    (argvZeroTimeout.gasIncreaseTimeout = coerceGasIncreaseTimeout 0 ∧
      checkGasTimeout argvZeroTimeout = checkGasFactor argvZeroTimeout) ∧
    checkArgv argvZeroTimeout = none ∧
    (argvShortTimeout.gasIncreaseTimeout ≠ 0 ∧ argvShortTimeout.gasIncreaseTimeout < 30000 ∧
      checkGasTimeout argvShortTimeout = some timeoutErr) :=
  ⟨⟨rfl, (c10_gas_increase_timeout_truthiness argvZeroTimeout).1 rfl⟩,
    (c10_gas_increase_timeout_truthiness argvZeroTimeout).2.2
      (by norm_num [argvZeroTimeout, argvBase, coerceGasIncreaseTimeout])
      (by decide)
      (by norm_num [argvZeroTimeout, argvBase, jsTruthyOptNum])
      (by norm_num [argvZeroTimeout, argvBase, jsTruthyOptNum])
      (by norm_num [argvZeroTimeout, argvBase]),
    ⟨by norm_num [argvShortTimeout, argvBase, coerceGasIncreaseTimeout],
      by norm_num [argvShortTimeout, argvBase, coerceGasIncreaseTimeout],
      (c10_gas_increase_timeout_truthiness argvShortTimeout).2.1
        (by norm_num [argvShortTimeout, argvBase, coerceGasIncreaseTimeout])
        (by norm_num [argvShortTimeout, argvBase, coerceGasIncreaseTimeout])⟩⟩

/-! ## C4 -/

/-- C4: `evaluate()` submits a claim exactly when some allocation meets a
trigger condition (per-allocation sum at threshold, batch sum at
threshold, or closing); the submitted batch consists precisely of the
collected vouchers of the qualifying allocations and its total is the
exact sum of their values; and in the spec's scenario (threshold 200,
collected values 80, 90, 100) the first two vouchers trigger nothing
while the third triggers a single claim of all three vouchers totalling
270. -/
theorem c4_threshold_claim_construction :
    (∀ (cfg : SchedulerConfig) (allocs : List AllocationInfo) (vs : List Voucher),
      (evaluate cfg allocs vs).isSome = allocs.any (qualifies cfg vs)) ∧
    (∀ (cfg : SchedulerConfig) (allocs : List AllocationInfo) (vs : List Voucher)
        (batch : ClaimBatch), evaluate cfg allocs vs = some batch →
      (∀ v : Voucher, v ∈ batch.vouchers ↔
        v ∈ vs ∧ isCollected v = true ∧
          ∃ a ∈ allocs, qualifies cfg vs a = true ∧ a.id = v.allocation) ∧
      batch.total = (batch.vouchers.map (fun v => v.value)).sum) ∧
    (evaluate cfg200 [alloc1] scenarioFirstTwo = none ∧
      evaluate cfg200 [alloc1] scenarioVouchers =
        some { vouchers := scenarioVouchers, total := 270 }) := by
  refine ⟨?_, ?_, ?_, ?_⟩
  · intro cfg allocs vs
    by_cases h : allocs.any (qualifies cfg vs) = true
    · simp [evaluate, h]
    · simp only [Bool.not_eq_true] at h
      simp [evaluate, h]
  · intro cfg allocs vs batch h
    unfold evaluate at h
    by_cases hq : allocs.any (qualifies cfg vs) = true
    · rw [if_pos hq] at h
      injection h with h
      subst h
      refine ⟨fun v => ?_, rfl⟩
      simp only [buildBatch, List.mem_filter, Bool.and_eq_true, List.any_eq_true,
        beq_iff_eq]
    · rw [if_neg hq] at h
      cases h
  · decide
  · decide

/-- C4 witness: instantiating the construction property at the scenario —
the batch total 270 is the exact sum of the three voucher values. -/
theorem c4_threshold_claim_construction_witness :
    evaluate cfg200 [alloc1] scenarioVouchers =
      some { vouchers := scenarioVouchers, total := 270 } ∧
    (270 : ℤ) = (scenarioVouchers.map (fun v => v.value)).sum := by
  refine ⟨c4_threshold_claim_construction.2.2.2, ?_⟩
  have h := (c4_threshold_claim_construction.2.1 cfg200 [alloc1] scenarioVouchers
    { vouchers := scenarioVouchers, total := 270 } (by decide)).2
  simpa using h

/-! ## C6

Proof that the queue/store invariant `InvC` holds in every reachable
state and that crash-plus-recovery is the identity on such states. -/

lemma awaitingIds_cons (v : Voucher) (t : List Voucher) :
    awaitingIds (v :: t) =
      if isAwaiting v = true then v.id :: awaitingIds t else awaitingIds t := by
  simp only [awaitingIds, List.filter_cons]
  by_cases h : isAwaiting v = true <;> simp [h]

lemma awaitingIds_append (l : List Voucher) (v : Voucher) :
    awaitingIds (l ++ [v]) =
      awaitingIds l ++ (if isAwaiting v = true then [v.id] else []) := by
  simp only [awaitingIds, List.filter_append, List.map_append]
  by_cases h : isAwaiting v = true <;> simp [h]

lemma awaitingIds_map_congr (f : Voucher → Voucher)
    (hid : ∀ v, (f v).id = v.id) (hact : ∀ v, isAwaiting (f v) = isAwaiting v) :
    ∀ l : List Voucher, awaitingIds (l.map f) = awaitingIds l := by
  intro l
  induction l with
  | nil => rfl
  | cons v t ih =>
    rw [List.map_cons, awaitingIds_cons, awaitingIds_cons, hact v, hid v, ih]

lemma map_id_comp (f : Voucher → Voucher) (hid : ∀ v, (f v).id = v.id) :
    ∀ l : List Voucher, (l.map f).map (fun v => v.id) = l.map (fun v => v.id) := by
  intro l
  induction l with
  | nil => rfl
  | cons v t ih => simp only [List.map_cons, hid v, ih]

lemma setState_id (id : ℕ) (st : VState) (v : Voucher) : (setState id st v).id = v.id := by
  unfold setState
  split <;> rfl

lemma setState_ne (id : ℕ) (st : VState) (v : Voucher) (h : v.id ≠ id) :
    setState id st v = v := by
  simp [setState, h]

lemma map_setState_not_mem (id : ℕ) (st : VState) (l : List Voucher)
    (h : id ∉ l.map (fun v => v.id)) : l.map (setState id st) = l := by
  induction l with
  | nil => rfl
  | cons v t ih =>
    simp only [List.map_cons, List.mem_cons] at h
    push_neg at h
    rw [List.map_cons, setState_ne id st v (fun he => h.1 he.symm), ih h.2]

lemma awaitingIds_subset_ids (l : List Voucher) (j : ℕ) (h : j ∈ awaitingIds l) :
    j ∈ l.map (fun v => v.id) := by
  simp only [awaitingIds, List.mem_map, List.mem_filter] at h
  obtain ⟨v, ⟨hv, -⟩, rfl⟩ := h
  exact List.mem_map_of_mem _ hv

lemma filter_ne_of_not_mem (l : List ℕ) (id : ℕ) (h : id ∉ l) :
    l.filter (fun j => j != id) = l := by
  induction l with
  | nil => rfl
  | cons a t ih =>
    simp only [List.mem_cons] at h
    push_neg at h
    have hne : (a != id) = true := bne_iff_ne.mpr (fun he => h.1 he.symm)
    rw [List.filter_cons, if_pos hne, ih h.2]

lemma awaitingIds_setState_collected (l : List Voucher) (id : ℕ)
    (hnd : (l.map (fun v => v.id)).Nodup) (v : Voucher) (hv : v ∈ l) (hvid : v.id = id) :
    awaitingIds (l.map (setState id VState.collected)) =
      (awaitingIds l).filter (fun j => j != id) := by
  induction l with
  | nil => cases hv
  | cons w t ih =>
    rw [List.map_cons, List.nodup_cons] at hnd
    rcases List.mem_cons.mp hv with rfl | hvt
    · have hnm : id ∉ t.map (fun x => x.id) := hvid ▸ hnd.1
      rw [List.map_cons, awaitingIds_cons, awaitingIds_cons,
        map_setState_not_mem id VState.collected t hnm]
      have hset : setState id VState.collected v = { v with state := VState.collected } := by
        simp [setState, hvid]
      rw [hset]
      have hnotA : isAwaiting { v with state := VState.collected } = false := by
        simp [isAwaiting]
      rw [hnotA]
      simp only [Bool.false_eq_true, if_false]
      have hfil : (awaitingIds t).filter (fun j => j != id) = awaitingIds t :=
        filter_ne_of_not_mem _ _ (fun hmem => hnm (awaitingIds_subset_ids t id hmem))
      by_cases hw : isAwaiting v = true
      · rw [if_pos hw, List.filter_cons, hvid]
        simp only [bne_self_eq_false, Bool.false_eq_true, if_false]
        exact hfil.symm
      · rw [if_neg hw]
        exact hfil.symm
    · have hwid : w.id ≠ id := by
        intro he
        apply hnd.1
        rw [he, ← hvid]
        exact List.mem_map_of_mem _ hvt
      rw [List.map_cons, awaitingIds_cons, awaitingIds_cons,
        setState_ne id VState.collected w hwid, ih hnd.2 hvt]
      by_cases hw : isAwaiting w = true
      · rw [if_pos hw, if_pos hw, List.filter_cons, if_pos (bne_iff_ne.mpr hwid)]
      · rw [if_neg hw, if_neg hw]

lemma awaitingIds_setState_pending (l : List Voucher) (id : ℕ)
    (hnd : (l.map (fun v => v.id)).Nodup) (v : Voucher) (hv : v ∈ l) (hvid : v.id = id)
    (hst : v.state = VState.collecting) :
    awaitingIds (l.map (setState id VState.pending)) = awaitingIds l := by
  induction l with
  | nil => cases hv
  | cons w t ih =>
    rw [List.map_cons, List.nodup_cons] at hnd
    rcases List.mem_cons.mp hv with rfl | hvt
    · have hnm : id ∉ t.map (fun x => x.id) := hvid ▸ hnd.1
      rw [List.map_cons, awaitingIds_cons, awaitingIds_cons,
        map_setState_not_mem id VState.pending t hnm]
      have hset : setState id VState.pending v = { v with state := VState.pending } := by
        simp [setState, hvid]
      rw [hset]
      have h1 : isAwaiting { v with state := VState.pending } = true := by
        simp [isAwaiting]
      have h2 : isAwaiting v = true := by
        simp [isAwaiting, hst]
      rw [h1, h2]
    · have hwid : w.id ≠ id := by
        intro he
        apply hnd.1
        rw [he, ← hvid]
        exact List.mem_map_of_mem _ hvt
      rw [List.map_cons, awaitingIds_cons, awaitingIds_cons,
        setState_ne id VState.pending w hwid, ih hnd.2 hvt]

lemma invC_init : InvC initC := ⟨rfl, rfl⟩

lemma invC_nodup {s : CState} (h : InvC s) : (s.store.map (fun v => v.id)).Nodup := by
  rw [h.2]
  exact List.nodup_range _

lemma invC_ingest (r : Receipt) (s : CState) (h : InvC s) : InvC (ingestS r s) := by
  constructor
  · simp only [ingestS]
    rw [awaitingIds_append, h.1]
    by_cases hv : receiptValid r = true
    · simp [hv, isAwaiting]
    · simp [hv, isAwaiting]
  · simp only [ingestS]
    rw [List.map_append, h.2]
    simp [List.range_succ]

lemma markCollecting_id (v : Voucher) : (markCollecting v).id = v.id := by
  unfold markCollecting
  split <;> rfl

lemma markCollecting_awaiting (v : Voucher) :
    isAwaiting (markCollecting v) = isAwaiting v := by
  by_cases h : v.state = VState.pending <;> simp [markCollecting, isAwaiting, h]

lemma invC_beginCollect (s : CState) (h : InvC s) : InvC (beginCollectS s) := by
  constructor
  · simp only [beginCollectS]
    rw [awaitingIds_map_congr markCollecting markCollecting_id markCollecting_awaiting]
    exact h.1
  · simp only [beginCollectS]
    rw [map_id_comp markCollecting markCollecting_id, List.length_map]
    exact h.2

lemma invC_accept (id : ℕ) (s : CState) (h : InvC s) : InvC (endpointAcceptS id s) := by
  cases hf : s.store.find? (fun v => v.id == id) with
  | none =>
    have heq : endpointAcceptS id s = s := by
      unfold endpointAcceptS
      rw [hf]
    rw [heq]
    exact h
  | some v =>
    by_cases hst : v.state = VState.collecting
    · have heq : endpointAcceptS id s =
        { store := s.store.map (setState id VState.collected)
          queue := s.queue.filter (fun j => j != id) } := by
        unfold endpointAcceptS
        rw [hf]
        exact if_pos hst
      rw [heq]
      have hvm : v ∈ s.store := List.mem_of_find?_eq_some hf
      have hvid : v.id = id := by simpa using List.find?_some hf
      constructor
      · show s.queue.filter (fun j => j != id) =
          awaitingIds (s.store.map (setState id VState.collected))
        rw [awaitingIds_setState_collected s.store id (invC_nodup h) v hvm hvid, h.1]
      · show (s.store.map (setState id VState.collected)).map _ =
          List.range (s.store.map (setState id VState.collected)).length
        rw [map_id_comp _ (setState_id id VState.collected), List.length_map]
        exact h.2
    · have heq : endpointAcceptS id s = s := by
        unfold endpointAcceptS
        rw [hf]
        exact if_neg hst
      rw [heq]
      exact h

lemma invC_reject (id : ℕ) (s : CState) (h : InvC s) : InvC (endpointRejectS id s) := by
  cases hf : s.store.find? (fun v => v.id == id) with
  | none =>
    have heq : endpointRejectS id s = s := by
      unfold endpointRejectS
      rw [hf]
    rw [heq]
    exact h
  | some v =>
    by_cases hst : v.state = VState.collecting
    · have heq : endpointRejectS id s =
        { s with store := s.store.map (setState id VState.pending) } := by
        unfold endpointRejectS
        rw [hf]
        exact if_pos hst
      rw [heq]
      have hvm : v ∈ s.store := List.mem_of_find?_eq_some hf
      have hvid : v.id = id := by simpa using List.find?_some hf
      constructor
      · show s.queue = awaitingIds (s.store.map (setState id VState.pending))
        rw [awaitingIds_setState_pending s.store id (invC_nodup h) v hvm hvid hst]
        exact h.1
      · show (s.store.map (setState id VState.pending)).map _ =
          List.range (s.store.map (setState id VState.pending)).length
        rw [map_id_comp _ (setState_id id VState.pending), List.length_map]
        exact h.2
    · have heq : endpointRejectS id s = s := by
        unfold endpointRejectS
        rw [hf]
        exact if_neg hst
      rw [heq]
      exact h

lemma invC_step (s : CState) (e : CEvent) (h : InvC s) : InvC (stepC s e) := by
  cases e with
  | receipt r => exact invC_ingest r s h
  | beginCollect => exact invC_beginCollect s h
  | endpointAccept id => exact invC_accept id s h
  | endpointReject id => exact invC_reject id s h

lemma invC_run (s : CState) (es : List CEvent) (h : InvC s) : InvC (runC s es) := by
  induction es generalizing s with
  | nil => exact h
  | cons e t ih => exact ih (stepC s e) (invC_step s e h)

lemma recoverS_crashC {s : CState} (h : InvC s) : recoverS (crashC s) = s := by
  obtain ⟨store, queue⟩ := s
  have h1 : queue = awaitingIds store := h.1
  simp only [recoverS, crashC]
  rw [h1]

/-- C6: `recover()` re-enqueues exactly the vouchers left in `pending` or
`collecting` state, and for every store state reachable before a crash,
running `recover()` after the crash and then processing any subsequent
input sequence reaches exactly the same final state — store and queue —
as the uninterrupted run. -/
theorem c6_recovery_equivalence :
    (∀ s : CState, (recoverS s).queue = awaitingIds s.store) ∧
    (∀ pre post : List CEvent,
      runC (recoverS (crashC (runC initC pre))) post = runC (runC initC pre) post) := by
  constructor
  · intro s
    rfl
  · intro pre post
    rw [recoverS_crashC (invC_run initC pre invC_init)]

end IndexerAgent
